import Mathlib

/-!
Verification of the qemu-eos test harness core
(`magiclantern/ml_qemu/run.py` and `magiclantern/ml_tests/menu_test.py`):
a shallow embedding of the emulator supervisor (`QemuRunner`), its
management-socket shutdown protocol, the screen-capture naming scheme
and the `MenuTest.run` scenario state machine, together with theorems
settling the claims of the specification about them.

Modelling conventions:
 - The filesystem is a list of existing path names (`World.fs`); writing
   a file inserts its name if absent, `os.remove` deletes it or raises
   `FileNotFoundError` when absent.
 - Externally observable channel activity (key presses, sleeps, screen
   captures, monitor-socket traffic) is recorded in an event trace.
 - Durations are exact rationals (`0.3 = 3/10` etc.); the Python floats
   involved are literals that are never computed with, so this is exact.
 - Outcomes of the screen comparison (`expectScreen`) and of the monitor
   socket connect are oracles supplied by an `Env`, since they depend on
   the behaviour of the emulated camera.
-/

namespace QemuEos

/-- Python `str.startswith` (over the underlying character list, so that
it evaluates by kernel reduction). -/
def pyStartsWith (s pre : String) : Bool :=
  List.isPrefixOf pre.data s.data

/-- Python `str.endswith`. -/
def pyEndsWith (s suf : String) : Bool :=
  List.isSuffixOf suf.data s.data

/-- Python `str.zfill(width)`: pad with leading zeros up to `width`,
keeping a leading sign character in front. -/
def zfill (s : String) (width : Nat) : String :=
  if width ≤ s.length then s
  else
    let pad := List.replicate (width - s.length) '0'
    match s.data with
    | c :: cs => if c == '+' || c == '-' then String.mk (c :: (pad ++ cs))
                 else String.mk (pad ++ (c :: cs))
    | [] => String.mk pad

/-- Python whitespace characters recognised by `str.split()` (no
arguments): space, tab, newline, carriage return, vertical tab, form feed. -/
def isPySpace (c : Char) : Bool :=
  c = ' ' || c = '\t' || c = '\n' || c = '\r' || c = '\x0b' || c = '\x0c'

/-- Helper for `pySplit`: scan the characters, accumulating the current
word in reverse. -/
def pySplitAux : List Char → List Char → List String
  | [], acc => if acc.isEmpty then [] else [String.mk acc.reverse]
  | c :: cs, acc =>
    if isPySpace c then
      (if acc.isEmpty then [] else [String.mk acc.reverse]) ++ pySplitAux cs []
    else pySplitAux cs (c :: acc)

/-- Python `str.split()` with no arguments: split on runs of whitespace,
discarding empty pieces. -/
def pySplit (s : String) : List String :=
  pySplitAux s.data []

/-- Python `os.path.join` for the two-argument POSIX case used here. -/
def pathJoin (a b : String) : String :=
  if pyStartsWith b "/" then b
  else if a = "" then b
  else if pyEndsWith a "/" then a ++ b
  else a ++ "/" ++ b

/-- Record a file as existing: a write creates the path if absent
(re-writing an existing file leaves the set of paths unchanged). -/
def fsAdd (fs : List String) (p : String) : List String :=
  if p ∈ fs then fs else p :: fs

/-- Python `os.remove`: delete the path, or raise `FileNotFoundError`
(modelled as `Except.error ()`) when it does not exist. -/
def osRemove (fs : List String) (p : String) : Except Unit (List String) :=
  if p ∈ fs then Except.ok (fs.filter (fun x => x ≠ p)) else Except.error ()

/-- Exceptions that the embedded code can raise. -/
inductive PyErr
  | connectionError
  | other
deriving DecidableEq, Repr

/-- Externally observable actions of one scenario run.  `close` is the
monitor socket connection being closed. -/
inductive Event
  | popen
  | keyPress (key : String)
  | sleep (t : ℚ)
  | capture (name : String)
  | saveFail (name : String)
  | connect (path : String)
  | send (data : String)
  | close
deriving DecidableEq, Repr

/-- Process and filesystem state surrounding the emulator. -/
structure World where
  fs : List String
  processStarted : Bool
  terminated : Bool
deriving DecidableEq, Repr

/-- The mutable state of `QemuRunner` (run.py) that the claims concern:
the screen-capture naming prefix and counter and the monitor socket
path.  `screen_cap_name` is the name of the most recent capture. -/
structure QemuRunner where
  screen_cap_prefix : String
  screen_cap_counter : Nat
  monitor_socket_path : String
  screen_cap_name : String
deriving DecidableEq, Repr

/-- `QemuRunner.__init__` (run.py lines 35-56): capture prefix `"test_"`,
counter `0`, monitor socket path defaulting to `"qemu.monitor"` when the
argument is empty. -/
def QemuRunner_init (monitor_socket_path : String) : QemuRunner :=
  { screen_cap_prefix := "test_"
    screen_cap_counter := 0
    monitor_socket_path :=
      if monitor_socket_path ≠ "" then monitor_socket_path else "qemu.monitor"
    screen_cap_name := "" }

/-- The name `capture_screen` writes next (run.py lines 133-137):
prefix, then the counter zero-padded to two digits, then `".png"`. -/
def capName (q : QemuRunner) : String :=
  QemuRunner.screen_cap_prefix q ++ zfill (toString (QemuRunner.screen_cap_counter q)) 2 ++ ".png"

/-- Result of an action against the runner: updated runner state,
updated world, events emitted. -/
structure Act where
  q : QemuRunner
  w : World
  evs : List Event

/-- `QemuRunner.capture_screen` (run.py lines 128-138): sleep 0.1, save a
screenshot named from the current counter, increment the counter,
sleep 0.1 again. -/
def capture_screen (q : QemuRunner) (w : World) : Act :=
  { q := { q with screen_cap_counter := QemuRunner.screen_cap_counter q + 1
                  screen_cap_name := capName q }
    w := { w with fs := fsAdd w.fs (capName q) }
    evs := [Event.sleep (1/10), Event.capture (capName q), Event.sleep (1/10)] }

/-- `QemuRunner.key_press(key, delay)`: press the key over VNC, sleep the
settle delay, then capture the screen.  The capture behaviour is
run.py lines 119-126; the `delay` parameter and the name of the capture
are Modelled from the spec: `menu_test.py` calls `key_press(k, delay=...)`
and reads `screen_cap_name` from a `QemuRunner` revision absent from the
sources, and §4.4 of the spec fixes the order "pressKey, then sleep the
resolved delay, then captureScreen". -/
def key_press (q : QemuRunner) (w : World) (key : String) (delay : ℚ) : Act :=
  let a := capture_screen q w
  { a with evs := Event.keyPress key :: Event.sleep delay :: a.evs }

/-- `QemuRunner.shutdown` (run.py lines 107-117): connect to the monitor
socket, send `quit\n` if `force` else `system_powerdown\n`, then sleep 2.
No response is read and no exception is handled; `connOk` is the oracle
for whether the connect succeeds (else `ConnectionError` is raised).
The source never calls `close()`: the socket `s` is a local dropped when
the function exits, so the connection closes only after the `sleep(2)`
on the success path (and as the exception propagates on the failure
path); the trailing `Event.close` records that implicit closure. -/
def shutdown (q : QemuRunner) (connOk : Bool) (force : Bool) : List Event × Option PyErr :=
  if connOk then
    ([Event.connect (QemuRunner.monitor_socket_path q),
      Event.send (if force then "quit\n" else "system_powerdown\n"),
      Event.sleep 2, Event.close], none)
  else
    ([Event.connect (QemuRunner.monitor_socket_path q), Event.close],
     some PyErr.connectionError)

/-- `QemuRunner.__enter__` (run.py lines 81-98): start the emulator with
Popen (the `-chardev socket,server,...` option of the command makes the emulator
create the monitor socket file), then sleep 1.5. -/
def qemuEnter (q : QemuRunner) (w : World) : World × List Event :=
  ({ w with processStarted := true
            fs := fsAdd w.fs (QemuRunner.monitor_socket_path q) },
   [Event.popen, Event.sleep (3/2)])

/-- `QemuRunner.__exit__` (run.py lines 100-105): terminate the process,
then `os.remove` the monitor socket path, suppressing
`FileNotFoundError`. -/
def qemuExit (q : QemuRunner) (w : World) : World :=
  match osRemove w.fs (QemuRunner.monitor_socket_path q) with
  | Except.ok fs2 => { w with terminated := true, fs := fs2 }
  | Except.error _ => { w with terminated := true }

/-- Outcome of `vnc_client.expectScreen` at one step of the scenario
(menu_test.py lines 134-155): the screen matched, the reference file was
missing (`FileNotFoundError`), the comparison timed out (`TimeoutError`),
or some other exception escaped. -/
inductive CmpOutcome
  | ok
  | refMissing
  | timedOut
  | raises
deriving DecidableEq, Repr

/-- Oracles for behaviour of the emulated camera: the comparison outcome
of each step (by step index) and whether the monitor-socket connect in
`shutdown` succeeds. -/
structure Env where
  step : Nat → CmpOutcome
  shutdown_ok : Bool

/-- The camera under test: device model and the MD5 of its code ROM. -/
structure Cam where
  model : String
  code_rom_md5 : String
deriving DecidableEq, Repr

/-- Configuration of one `MenuTest.run` invocation.  `known_cams` is the
externally injected registry mapping device model to its known ROM MD5
sums (an attribute of the surrounding `Test` class, external data per
spec §6). -/
structure MenuCfg where
  cam : Cam
  known_cams : List (String × List String)
  expected_output_dir : String
  force_continue : Bool
  qemu_monitor_path : String

/-- Python `key in dict` / `dict[key]` over an association list. -/
def lookup? {α : Type} (tbl : List (String × α)) (key : String) : Option α :=
  Option.map Prod.snd (tbl.find? (fun p => p.1 == key))

/-- The per-ROM key sequences of `MenuTest` (menu_test.py lines 28-70),
keyed by code ROM MD5 sum. -/
def qemu_key_sequences : List (String × List String) :=
  [("e6a90e8497c2c1187e0322010a42b9b5", -- 5D3 ROM1
    ["m", "l", "l", "m",
     "left", "left", "left", "left", "left", "left", "left", "left", "left",
     "left", "left", "left", "left", "left", "left", "left", "left", "left",
     "left", "left", "left",
     "up", "up", "space", "down", "space",
     "right", "right", "right", "up", "space", "pgdn", "space"]),
   ("424545a5cfe10b1a5d8cefffe9fe5297", -- 50D ROM1
    ["m", "l", "l", "m", "right", "right", "right", "right",
     "right", "right", "right", "right", "right",
     "up", "up", "space", "down", "space",
     "right", "up", "up", "space", "pgdn", "space"]),
   ("d266ce304585952fb3a05a9f6c304f2f", -- 60D ROM1
    ["m", "l", "l", "m", "left", "left", "left", "left",
     "left", "left", "left", "left", "left", "left", "left",
     "up", "up", "space", "down", "space",
     "left", "up", "up", "space", "pgup", "space"]),
   ("e06a0e3919ac4d4ef609a864e937a5d3", -- 100D ROM1
    ["m", "wait l", "wait l", "m",
     "right", "right", "right", "right",
     "right", "right", "right", "right", "right", "right",
     "right",
     "up", "up", "up", "space", "down", "space"]),
   ("f6c20df071b3514fa65f35dc5d71b484", -- 700D ROM1
    ["f1", "m", "right", "right", "right", "right", "right",
     "right", "right", "right", "right", "right", "right",
     "right",
     "space", "right", "space",
     "left", "space", "down", "down", "up", "space"]),
   ("0a9fce1e4ef6d2ac2c3bc63eb96d3c34", -- 500D ROM1
    ["f1", "m", "l", "l", "m",
     "left", "left", "left", "left", "left", "left", "left", "left",
     "right", "space", "right", "space",
     "right", "space", "up", "up", "down", "space"])]

/-- Terminal outcome of `MenuTest.run`: `return_success`,
`return_failure(reason)` (modelled from the spec: the `Test` base class
is not among the sources; spec §3 `TestOutcome` is "success, or failure
with a human-readable reason string"), or an uncaught exception. -/
inductive RunResult
  | success
  | failure (reason : String)
  | exn (e : PyErr)
deriving DecidableEq, Repr

/-- Result of the per-step loop: runner and world state, accumulated
event trace, and `some r` when the loop was cut short by an early
`return` or an exception. -/
structure LoopOut where
  q : QemuRunner
  w : World
  tr : List Event
  res : Option RunResult

/-- The key press of one step: resolve the settle delay (0.3 by default, 5
when the step string starts with `"wait"`, in which case the key is the
last whitespace-separated token — menu_test.py lines 124-131), then
`key_press`. -/
def stepAct (q : QemuRunner) (w : World) (k : String) : Act :=
  key_press q w
    (if pyStartsWith k "wait" then (pySplit k).getLastD "" else k)
    (if pyStartsWith k "wait" then 5 else 3/10)

/-- The body of the `for k in key_sequence` loop of `MenuTest.run`
(menu_test.py lines 123-155): press the key and capture, then compare
with `expectScreen` against the reference path, handling
`FileNotFoundError` and `TimeoutError` under the `force_continue`
policy.  `i` is the index of the current step in the sequence. -/
def runLoop (cfg : MenuCfg) (env : Env) :
    List String → Nat → QemuRunner → World → List Event → LoopOut
  | [], _, q, w, tr => { q := q, w := w, tr := tr, res := none }
  | k :: ks, i, q, w, tr =>
    let a := stepAct q w k
    let expected := pathJoin (MenuCfg.expected_output_dir cfg) (QemuRunner.screen_cap_name a.q)
    match Env.step env i with
    | CmpOutcome.ok => runLoop cfg env ks (i + 1) a.q a.w (tr ++ a.evs)
    | CmpOutcome.raises =>
      { q := a.q, w := a.w, tr := tr ++ a.evs, res := some (RunResult.exn PyErr.other) }
    | CmpOutcome.refMissing =>
      if MenuCfg.force_continue cfg then runLoop cfg env ks (i + 1) a.q a.w (tr ++ a.evs)
      else
        { q := a.q, w := a.w, tr := tr ++ a.evs
          res := some (RunResult.failure
            ("Missing expected output file: " ++ expected)) }
    | CmpOutcome.timedOut =>
      let failName := "fail_" ++ QemuRunner.screen_cap_name a.q
      let w2 := { a.w with fs := fsAdd (a.w).fs failName }
      let evs2 := a.evs ++ [Event.saveFail failName]
      if MenuCfg.force_continue cfg then runLoop cfg env ks (i + 1) a.q w2 (tr ++ evs2)
      else
        { q := a.q, w := w2, tr := tr ++ evs2
          res := some (RunResult.failure
            ("Qemu screen never matched against expected result file \x27"
             ++ expected ++ "\x27\n, check \x27" ++ failName ++ "\x27")) }

/-- The `QemuRunner` as configured at the start of the scenario loop:
constructed with the monitor socket path of the test, capture prefix then set
to `"menu_test_"` (menu_test.py line 122). -/
def menuRunner (cfg : MenuCfg) : QemuRunner :=
  { QemuRunner_init (MenuCfg.qemu_monitor_path cfg) with screen_cap_prefix := "menu_test_" }

/-- Outcome of a whole `MenuTest.run`: result, final world, event trace,
and the final runner state (`none` when the run never constructed one). -/
structure RunOut where
  result : RunResult
  world : World
  trace : List Event
  runner : Option QemuRunner

/-- `MenuTest.run` (menu_test.py lines 72-160): three registry
precondition checks with early failure returns, then the scenario under
`with QemuRunner(...)` — key loop, then a graceful `shutdown()` —
returning success.  The `with` statement guarantees `__exit__` runs on
every exit path out of its body, including early returns and
exceptions, which then propagate. -/
def MenuTest_run (cfg : MenuCfg) (env : Env) (w0 : World) : RunOut :=
  match lookup? (MenuCfg.known_cams cfg) (Cam.model (MenuCfg.cam cfg)) with
  | none =>
    { result := RunResult.failure ("No tests known for cam: " ++ Cam.model (MenuCfg.cam cfg))
      world := w0, trace := [], runner := none }
  | some md5s =>
    if Cam.code_rom_md5 (MenuCfg.cam cfg) ∉ md5s then
      { result := RunResult.failure
          ("Unknown rom for cam, MD5 sum: " ++ Cam.code_rom_md5 (MenuCfg.cam cfg))
        world := w0, trace := [], runner := none }
    else
      match lookup? qemu_key_sequences (Cam.code_rom_md5 (MenuCfg.cam cfg)) with
      | none =>
        { result := RunResult.failure
            ("Unknown rom for MenuTest, MD5 sum: " ++ Cam.code_rom_md5 (MenuCfg.cam cfg))
          world := w0, trace := [], runner := none }
      | some key_sequence =>
        let q0 := QemuRunner_init (MenuCfg.qemu_monitor_path cfg)
        let ew := qemuEnter q0 w0
        let o := runLoop cfg env key_sequence 0 (menuRunner cfg) ew.1 ew.2
        match LoopOut.res o with
        | some r =>
          { result := r, world := qemuExit (LoopOut.q o) (LoopOut.w o)
            trace := LoopOut.tr o, runner := some (LoopOut.q o) }
        | none =>
          let sd := shutdown (LoopOut.q o) (Env.shutdown_ok env) false
          match sd.2 with
          | some e =>
            { result := RunResult.exn e, world := qemuExit (LoopOut.q o) (LoopOut.w o)
              trace := LoopOut.tr o ++ sd.1, runner := some (LoopOut.q o) }
          | none =>
            { result := RunResult.success, world := qemuExit (LoopOut.q o) (LoopOut.w o)
              trace := LoopOut.tr o ++ sd.1, runner := some (LoopOut.q o) }

/-- The capture artifact names occurring in a trace, in order. -/
def capturesOf (tr : List Event) : List String :=
  tr.filterMap fun e =>
    match e with
    | Event.capture n => some n
    | _ => none

/-- The diagnostic ("fail_") artifact names occurring in a trace. -/
def saveFailsOf (tr : List Event) : List String :=
  tr.filterMap fun e =>
    match e with
    | Event.saveFail n => some n
    | _ => none

/-- Whether an event is the graceful PowerDown command being sent. -/
def isPowerDownSend (e : Event) : Bool :=
  match e with
  | Event.send s => s == "system_powerdown\n"
  | _ => false

/-- The capture name of the scenario loop at counter value `i`. -/
def menuName (i : Nat) : String :=
  "menu_test_" ++ zfill (toString i) 2 ++ ".png"

/-- The number of captures reported by the final runner state. -/
def RunOut.capCount (o : RunOut) : Nat :=
  match RunOut.runner o with
  | some q => QemuRunner.screen_cap_counter q
  | none => 0

/-- The monitor socket path a configuration leads to. -/
def monPath (cfg : MenuCfg) : String :=
  QemuRunner.monitor_socket_path (QemuRunner_init (MenuCfg.qemu_monitor_path cfg))

/-! ### Basic facts about one step of the scenario loop -/

theorem stepAct_q (q : QemuRunner) (w : World) (k : String) :
    Act.q (stepAct q w k)
      = { q with screen_cap_counter := QemuRunner.screen_cap_counter q + 1
                 screen_cap_name := capName q } := rfl

theorem stepAct_w (q : QemuRunner) (w : World) (k : String) :
    Act.w (stepAct q w k) = { w with fs := fsAdd w.fs (capName q) } := rfl

theorem stepAct_evs (q : QemuRunner) (w : World) (k : String) :
    Act.evs (stepAct q w k)
      = Event.keyPress (if pyStartsWith k "wait" then (pySplit k).getLastD "" else k)
        :: Event.sleep (if pyStartsWith k "wait" then 5 else 3/10)
        :: [Event.sleep (1/10), Event.capture (capName q), Event.sleep (1/10)] := rfl

theorem capturesOf_append (xs ys : List Event) :
    capturesOf (xs ++ ys) = capturesOf xs ++ capturesOf ys :=
  List.filterMap_append xs ys _

theorem capturesOf_stepAct (q : QemuRunner) (w : World) (k : String) :
    capturesOf (Act.evs (stepAct q w k)) = [capName q] := rfl

theorem capturesOf_stepAct_fail (q : QemuRunner) (w : World) (k : String) (n : String) :
    capturesOf (Act.evs (stepAct q w k) ++ [Event.saveFail n]) = [capName q] := rfl

theorem capturesOf_shutdown (q : QemuRunner) (connOk force : Bool) :
    capturesOf (shutdown q connOk force).1 = [] := by
  cases connOk <;> rfl

theorem countP_pd_stepAct (q : QemuRunner) (w : World) (k : String) :
    List.countP isPowerDownSend (Act.evs (stepAct q w k)) = 0 := rfl

theorem countP_pd_stepAct_fail (q : QemuRunner) (w : World) (k : String) (n : String) :
    List.countP isPowerDownSend (Act.evs (stepAct q w k) ++ [Event.saveFail n]) = 0 := rfl

/-! ### Invariants of the scenario loop -/

/-- The loop never changes the monitor socket path of the runner or capture
name prefix, and never touches the process flags of the world. -/
theorem runLoop_inv (cfg : MenuCfg) (env : Env) :
    ∀ (ks : List String) (i : Nat) (q : QemuRunner) (w : World) (tr : List Event),
      QemuRunner.monitor_socket_path (LoopOut.q (runLoop cfg env ks i q w tr))
        = QemuRunner.monitor_socket_path q
    ∧ QemuRunner.screen_cap_prefix (LoopOut.q (runLoop cfg env ks i q w tr))
        = QemuRunner.screen_cap_prefix q
    ∧ World.processStarted (LoopOut.w (runLoop cfg env ks i q w tr))
        = World.processStarted w
    ∧ World.terminated (LoopOut.w (runLoop cfg env ks i q w tr))
        = World.terminated w := by
  intro ks
  induction ks with
  | nil => intro i q w tr; exact ⟨rfl, rfl, rfl, rfl⟩
  | cons k ks ih =>
    intro i q w tr
    show _ ∧ _ ∧ _ ∧ _
    simp only [runLoop]
    rcases henv : Env.step env i with _ | _ | _ | _ <;>
      rcases hfc : MenuCfg.force_continue cfg <;>
      simp only [henv, hfc, Bool.false_eq_true, if_true, if_false] <;>
      first
        | exact ⟨rfl, rfl, rfl, rfl⟩
        | · obtain ⟨h1, h2, h3, h4⟩ := ih (i + 1) (Act.q (stepAct q w k)) _ _
            exact ⟨h1, h2, h3, h4⟩

/-- The loop only appends to the event trace. -/
theorem runLoop_tr_mono (cfg : MenuCfg) (env : Env) :
    ∀ (ks : List String) (i : Nat) (q : QemuRunner) (w : World) (tr : List Event),
      ∃ s, LoopOut.tr (runLoop cfg env ks i q w tr) = tr ++ s := by
  intro ks
  induction ks with
  | nil => intro i q w tr; exact ⟨[], (List.append_nil tr).symm⟩
  | cons k ks ih =>
    intro i q w tr
    simp only [runLoop]
    rcases henv : Env.step env i with _ | _ | _ | _ <;>
      rcases hfc : MenuCfg.force_continue cfg <;>
      simp only [henv, hfc, Bool.false_eq_true, if_true, if_false] <;>
      first
        | exact ⟨_, rfl⟩
        | · obtain ⟨s, hs⟩ := ih (i + 1) (Act.q (stepAct q w k)) _ _
            refine ⟨Act.evs (stepAct q w k) ++ s, ?_⟩
            rw [hs, List.append_assoc]
        | · obtain ⟨s, hs⟩ := ih (i + 1) (Act.q (stepAct q w k)) _ _
            refine ⟨(Act.evs (stepAct q w k)
              ++ [Event.saveFail ("fail_" ++ QemuRunner.screen_cap_name (Act.q (stepAct q w k)))]) ++ s, ?_⟩
            rw [hs, List.append_assoc]

/-- The loop sends nothing on the management channel. -/
theorem runLoop_no_powerdown (cfg : MenuCfg) (env : Env) :
    ∀ (ks : List String) (i : Nat) (q : QemuRunner) (w : World) (tr : List Event),
      List.countP isPowerDownSend (LoopOut.tr (runLoop cfg env ks i q w tr))
        = List.countP isPowerDownSend tr := by
  intro ks
  induction ks with
  | nil => intro i q w tr; rfl
  | cons k ks ih =>
    intro i q w tr
    simp only [runLoop]
    rcases henv : Env.step env i with _ | _ | _ | _ <;>
      rcases hfc : MenuCfg.force_continue cfg <;>
      simp only [henv, hfc, Bool.false_eq_true, if_true, if_false] <;>
      first
        | simp [List.countP_append, countP_pd_stepAct, countP_pd_stepAct_fail, isPowerDownSend]
        | · rw [ih (i + 1) (Act.q (stepAct q w k)) _ _]
            simp [List.countP_append, countP_pd_stepAct, countP_pd_stepAct_fail, isPowerDownSend]

/-- Characterisation of the captures made by the scenario loop: some
number `m` of steps (at most all of them) is processed, the counter
advances by exactly `m`, and the captured names are consecutively
numbered from the starting counter value. -/
theorem runLoop_caps (cfg : MenuCfg) (env : Env) :
    ∀ (ks : List String) (i : Nat) (q : QemuRunner) (w : World) (tr : List Event),
      ∃ m, m ≤ ks.length
        ∧ QemuRunner.screen_cap_counter (LoopOut.q (runLoop cfg env ks i q w tr))
            = QemuRunner.screen_cap_counter q + m
        ∧ capturesOf (LoopOut.tr (runLoop cfg env ks i q w tr))
            = capturesOf tr
              ++ (List.range' (QemuRunner.screen_cap_counter q) m).map
                   (fun j => QemuRunner.screen_cap_prefix q ++ zfill (toString j) 2 ++ ".png") := by
  intro ks
  induction ks with
  | nil =>
    intro i q w tr
    exact ⟨0, Nat.le_refl 0, rfl, by simp [runLoop]⟩
  | cons k ks ih =>
    intro i q w tr
    have hq : QemuRunner.screen_cap_counter (Act.q (stepAct q w k))
        = QemuRunner.screen_cap_counter q + 1 := rfl
    have hpre : QemuRunner.screen_cap_prefix (Act.q (stepAct q w k))
        = QemuRunner.screen_cap_prefix q := rfl
    have hcap : capName q
        = QemuRunner.screen_cap_prefix q ++ zfill (toString (QemuRunner.screen_cap_counter q)) 2 ++ ".png" := rfl
    simp only [runLoop]
    rcases henv : Env.step env i with _ | _ | _ | _ <;>
      rcases hfc : MenuCfg.force_continue cfg <;>
      simp only [henv, hfc, Bool.false_eq_true, if_true, if_false]
    case ok.false | ok.true | refMissing.true =>
      all_goals
        obtain ⟨m, hm, hcnt, hcaps⟩ := ih (i + 1) (Act.q (stepAct q w k)) (Act.w (stepAct q w k))
          (tr ++ Act.evs (stepAct q w k))
        refine ⟨m + 1, Nat.succ_le_succ hm, ?_, ?_⟩
        · rw [hcnt, hq]; omega
        · rw [hcaps, capturesOf_append, capturesOf_stepAct, hq, hpre, List.range'_succ,
            List.map_cons, ← hcap]
          simp
    case timedOut.true =>
      obtain ⟨m, hm, hcnt, hcaps⟩ := ih (i + 1) (Act.q (stepAct q w k)) _
        (tr ++ (Act.evs (stepAct q w k)
          ++ [Event.saveFail ("fail_" ++ QemuRunner.screen_cap_name (Act.q (stepAct q w k)))]))
      refine ⟨m + 1, Nat.succ_le_succ hm, ?_, ?_⟩
      · rw [hcnt, hq]; omega
      · rw [hcaps, capturesOf_append, capturesOf_stepAct_fail, hq, hpre, List.range'_succ,
          List.map_cons, ← hcap]
        simp
    case refMissing.false | timedOut.false | raises.false | raises.true =>
      all_goals
        refine ⟨1, Nat.succ_le_succ (Nat.zero_le _), rfl, ?_⟩
        rw [List.range'_one, List.map_singleton, ← hcap]
        exact capturesOf_append tr _

/-! ### Facts about `__exit__` and the overall run -/

theorem qemuExit_not_mem (q : QemuRunner) (w : World) :
    QemuRunner.monitor_socket_path q ∉ World.fs (qemuExit q w) := by
  unfold qemuExit osRemove
  by_cases h : QemuRunner.monitor_socket_path q ∈ World.fs w
  · simp [h]
  · simp [h]

theorem qemuExit_terminated (q : QemuRunner) (w : World) :
    World.terminated (qemuExit q w) = true := by
  unfold qemuExit osRemove
  by_cases h : QemuRunner.monitor_socket_path q ∈ World.fs w <;> simp [h]

/-- The scenario loop called by `MenuTest_run` once the registry checks
pass: starting runner, world after `__enter__`, launch events. -/
def menuLoop (cfg : MenuCfg) (env : Env) (seq : List String) (w0 : World) : LoopOut :=
  runLoop cfg env seq 0 (menuRunner cfg)
    (qemuEnter (QemuRunner_init (MenuCfg.qemu_monitor_path cfg)) w0).1
    (qemuEnter (QemuRunner_init (MenuCfg.qemu_monitor_path cfg)) w0).2

/-- Unfolding of `MenuTest_run` when the model is unknown. -/
theorem MenuTest_run_unknown_model (cfg : MenuCfg) (env : Env) (w0 : World)
    (hk : lookup? (MenuCfg.known_cams cfg) (Cam.model (MenuCfg.cam cfg)) = none) :
    MenuTest_run cfg env w0
      = { result := RunResult.failure ("No tests known for cam: " ++ Cam.model (MenuCfg.cam cfg))
          world := w0, trace := [], runner := none } := by
  simp only [MenuTest_run, hk]

/-- Unfolding of `MenuTest_run` when the ROM MD5 is not registered for
the model. -/
theorem MenuTest_run_unknown_rom (cfg : MenuCfg) (env : Env) (w0 : World)
    (md5s : List String)
    (hk : lookup? (MenuCfg.known_cams cfg) (Cam.model (MenuCfg.cam cfg)) = some md5s)
    (hmem : Cam.code_rom_md5 (MenuCfg.cam cfg) ∉ md5s) :
    MenuTest_run cfg env w0
      = { result := RunResult.failure
            ("Unknown rom for cam, MD5 sum: " ++ Cam.code_rom_md5 (MenuCfg.cam cfg))
          world := w0, trace := [], runner := none } := by
  simp only [MenuTest_run, hk, if_pos hmem]

/-- Unfolding of `MenuTest_run` when no key sequence is known for the
ROM MD5. -/
theorem MenuTest_run_unknown_sequence (cfg : MenuCfg) (env : Env) (w0 : World)
    (md5s : List String)
    (hk : lookup? (MenuCfg.known_cams cfg) (Cam.model (MenuCfg.cam cfg)) = some md5s)
    (hmem : Cam.code_rom_md5 (MenuCfg.cam cfg) ∈ md5s)
    (hs : lookup? qemu_key_sequences (Cam.code_rom_md5 (MenuCfg.cam cfg)) = none) :
    MenuTest_run cfg env w0
      = { result := RunResult.failure
            ("Unknown rom for MenuTest, MD5 sum: " ++ Cam.code_rom_md5 (MenuCfg.cam cfg))
          world := w0, trace := [], runner := none } := by
  simp only [MenuTest_run, hk, if_neg (not_not_intro hmem), hs]

/-- Unfolding of `MenuTest_run` when all three precondition checks pass:
the outcome is determined by the scenario loop and the shutdown. -/
theorem MenuTest_run_engaged (cfg : MenuCfg) (env : Env) (w0 : World)
    (md5s : List String) (seq : List String)
    (hk : lookup? (MenuCfg.known_cams cfg) (Cam.model (MenuCfg.cam cfg)) = some md5s)
    (hmem : Cam.code_rom_md5 (MenuCfg.cam cfg) ∈ md5s)
    (hs : lookup? qemu_key_sequences (Cam.code_rom_md5 (MenuCfg.cam cfg)) = some seq) :
    MenuTest_run cfg env w0
      = match LoopOut.res (menuLoop cfg env seq w0) with
        | some r =>
          { result := r
            world := qemuExit (LoopOut.q (menuLoop cfg env seq w0))
                       (LoopOut.w (menuLoop cfg env seq w0))
            trace := LoopOut.tr (menuLoop cfg env seq w0)
            runner := some (LoopOut.q (menuLoop cfg env seq w0)) }
        | none =>
          match (shutdown (LoopOut.q (menuLoop cfg env seq w0)) (Env.shutdown_ok env) false).2 with
          | some e =>
            { result := RunResult.exn e
              world := qemuExit (LoopOut.q (menuLoop cfg env seq w0))
                         (LoopOut.w (menuLoop cfg env seq w0))
              trace := LoopOut.tr (menuLoop cfg env seq w0)
                ++ (shutdown (LoopOut.q (menuLoop cfg env seq w0)) (Env.shutdown_ok env) false).1
              runner := some (LoopOut.q (menuLoop cfg env seq w0)) }
          | none =>
            { result := RunResult.success
              world := qemuExit (LoopOut.q (menuLoop cfg env seq w0))
                         (LoopOut.w (menuLoop cfg env seq w0))
              trace := LoopOut.tr (menuLoop cfg env seq w0)
                ++ (shutdown (LoopOut.q (menuLoop cfg env seq w0)) (Env.shutdown_ok env) false).1
              runner := some (LoopOut.q (menuLoop cfg env seq w0)) } := by
  simp only [MenuTest_run, hk, if_neg (not_not_intro hmem), hs]
  rfl

/-- `MenuTest.run` either fails one of its precondition checks, leaving
world and trace untouched, or enters the `with` block: then its final
world is `__exit__` applied to the world of the loop, its runner is the
runner of the loop, and its trace is the trace of the loop, possibly extended by
the shutdown traffic. -/
theorem MenuTest_run_shape (cfg : MenuCfg) (env : Env) (w0 : World) :
    (RunOut.world (MenuTest_run cfg env w0) = w0
     ∧ RunOut.trace (MenuTest_run cfg env w0) = []
     ∧ RunOut.runner (MenuTest_run cfg env w0) = none
     ∧ ∃ r, RunOut.result (MenuTest_run cfg env w0) = RunResult.failure r)
  ∨ ∃ seq,
      lookup? qemu_key_sequences (Cam.code_rom_md5 (MenuCfg.cam cfg)) = some seq
    ∧ RunOut.world (MenuTest_run cfg env w0)
        = qemuExit (LoopOut.q (menuLoop cfg env seq w0)) (LoopOut.w (menuLoop cfg env seq w0))
    ∧ RunOut.runner (MenuTest_run cfg env w0) = some (LoopOut.q (menuLoop cfg env seq w0))
    ∧ (RunOut.trace (MenuTest_run cfg env w0) = LoopOut.tr (menuLoop cfg env seq w0)
       ∨ RunOut.trace (MenuTest_run cfg env w0)
           = LoopOut.tr (menuLoop cfg env seq w0)
             ++ (shutdown (LoopOut.q (menuLoop cfg env seq w0)) (Env.shutdown_ok env) false).1) := by
  rcases hk : lookup? (MenuCfg.known_cams cfg) (Cam.model (MenuCfg.cam cfg)) with _ | md5s
  · rw [MenuTest_run_unknown_model cfg env w0 hk]
    exact Or.inl ⟨rfl, rfl, rfl, _, rfl⟩
  · by_cases hmem : Cam.code_rom_md5 (MenuCfg.cam cfg) ∈ md5s
    · rcases hs : lookup? qemu_key_sequences (Cam.code_rom_md5 (MenuCfg.cam cfg)) with _ | seq
      · rw [MenuTest_run_unknown_sequence cfg env w0 md5s hk hmem hs]
        exact Or.inl ⟨rfl, rfl, rfl, _, rfl⟩
      · rw [MenuTest_run_engaged cfg env w0 md5s seq hk hmem hs]
        refine Or.inr ⟨seq, rfl, ?_⟩
        rcases hres : LoopOut.res (menuLoop cfg env seq w0) with _ | r
        · rcases hb : Env.shutdown_ok env <;> simp [hres, shutdown, hb]
        · simp [hres]
    · rw [MenuTest_run_unknown_rom cfg env w0 md5s hk hmem]
      exact Or.inl ⟨rfl, rfl, rfl, _, rfl⟩

/-- The first forty scenario capture names are pairwise distinct. -/
theorem menuName_nodup_40 : (((List.range 40).map menuName)).Nodup := by decide

/-- Every key sequence in the table has at most forty steps. -/
theorem qemu_key_sequences_bounded :
    List.all qemu_key_sequences (fun p => decide (p.2.length ≤ 40)) = true := by decide

/-- A key sequence found in the table has at most forty steps. -/
theorem seq_len_le (md5 : String) (seq : List String)
    (h : lookup? qemu_key_sequences md5 = some seq) : seq.length ≤ 40 := by
  unfold lookup? at h
  cases hf : List.find? (fun p => p.1 == md5) qemu_key_sequences with
  | none => rw [hf] at h; exact absurd h (by simp)
  | some p =>
    rw [hf] at h
    simp at h
    have hp : p ∈ qemu_key_sequences := List.mem_of_find?_eq_some hf
    have hb := List.all_eq_true.mp qemu_key_sequences_bounded p hp
    have hlen : p.2.length ≤ 40 := of_decide_eq_true hb
    rw [← h]
    exact hlen

/-- The captures of any run are the consecutively numbered scenario
names, the final counter counting exactly them. -/
theorem MenuTest_run_captures (cfg : MenuCfg) (env : Env) (w0 : World) :
    ∃ m, m ≤ 40
      ∧ RunOut.capCount (MenuTest_run cfg env w0) = m
      ∧ capturesOf (RunOut.trace (MenuTest_run cfg env w0)) = (List.range m).map menuName := by
  rcases MenuTest_run_shape cfg env w0 with ⟨_, htr, hrun, _⟩ | ⟨seq, hs, _, hrun, htr⟩
  · refine ⟨0, Nat.zero_le 40, ?_, ?_⟩
    · rw [RunOut.capCount, hrun]
    · rw [htr]; rfl
  · obtain ⟨m, hm, hcnt, hcaps⟩ := runLoop_caps cfg env seq 0 (menuRunner cfg)
      (qemuEnter (QemuRunner_init (MenuCfg.qemu_monitor_path cfg)) w0).1
      (qemuEnter (QemuRunner_init (MenuCfg.qemu_monitor_path cfg)) w0).2
    have hlen : seq.length ≤ 40 := seq_len_le _ _ hs
    have hcnt' : QemuRunner.screen_cap_counter (LoopOut.q (menuLoop cfg env seq w0)) = m := by
      rw [menuLoop, hcnt]
      show 0 + m = m
      omega
    have hname : (fun j => QemuRunner.screen_cap_prefix (menuRunner cfg)
        ++ zfill (toString j) 2 ++ ".png") = menuName := rfl
    have hcaps' : capturesOf (LoopOut.tr (menuLoop cfg env seq w0)) = (List.range m).map menuName := by
      rw [menuLoop, hcaps]
      show [] ++ (List.range' 0 m).map _ = _
      rw [List.nil_append, ← List.range_eq_range', hname]
    refine ⟨m, le_trans hm hlen, ?_, ?_⟩
    · rw [RunOut.capCount, hrun]
      exact hcnt'
    · rcases htr with htr | htr <;> rw [htr]
      · exact hcaps'
      · rw [capturesOf_append, hcaps', capturesOf_shutdown, List.append_nil]

/-- `__exit__` when the socket file is absent: the FileNotFoundError is
suppressed and only the termination is recorded. -/
theorem qemuExit_err (q : QemuRunner) (w : World)
    (h : osRemove (World.fs w) (QemuRunner.monitor_socket_path q) = Except.error ()) :
    qemuExit q w = { w with terminated := true } := by
  unfold qemuExit
  rw [h]

/-! ### Concrete fixtures used by witnesses and counterexamples -/

/-- The 100D ROM1 key sequence (menu_test.py lines 49-55). -/
def seq100D : List String :=
  ["m", "wait l", "wait l", "m",
   "right", "right", "right", "right",
   "right", "right", "right", "right", "right", "right",
   "right",
   "up", "up", "up", "space", "down", "space"]

/-- A configuration for the 100D camera with its ROM registered. -/
def cfg100D : MenuCfg :=
  { cam := { model := "100D", code_rom_md5 := "e06a0e3919ac4d4ef609a864e937a5d3" }
    known_cams := [("100D", ["e06a0e3919ac4d4ef609a864e937a5d3"])]
    expected_output_dir := "expected"
    force_continue := false
    qemu_monitor_path := "qemu.monitor" }

/-- A configuration naming a camera model absent from the registry. -/
def cfgUnknown : MenuCfg :=
  { cam := { model := "9000D", code_rom_md5 := "00000000000000000000000000000000" }
    known_cams := []
    expected_output_dir := "expected"
    force_continue := false
    qemu_monitor_path := "qemu.monitor" }

/-- Every comparison matches; shutdown connect succeeds. -/
def envOK : Env := { step := fun _ => CmpOutcome.ok, shutdown_ok := true }

/-- The first comparison times out; shutdown connect succeeds. -/
def envTO : Env :=
  { step := fun i => if i = 0 then CmpOutcome.timedOut else CmpOutcome.ok
    shutdown_ok := true }

/-- Every comparison matches; shutdown connect is refused. -/
def envSD : Env := { step := fun _ => CmpOutcome.ok, shutdown_ok := false }

/-- Every reference image is missing. -/
def envRM : Env := { step := fun _ => CmpOutcome.refMissing, shutdown_ok := true }

/-- Empty filesystem, no process. -/
def w0c : World := { fs := [], processStarted := false, terminated := false }

/-! ### The claims -/

/-- C1: for every scenario run, regardless of exit path (normal
completion, early step failure, or an exception raised inside the
scenario), after the run the management socket artifact does not exist
on the filesystem, and whenever an emulator process was started it has
been sent a termination signal. -/
theorem C1_resource_cleanup (cfg : MenuCfg) (env : Env) (fs0 : List String)
    (h : monPath cfg ∉ fs0) :
    monPath cfg ∉ World.fs (RunOut.world (MenuTest_run cfg env ⟨fs0, false, false⟩))
  ∧ (World.processStarted (RunOut.world (MenuTest_run cfg env ⟨fs0, false, false⟩)) = true →
     World.terminated (RunOut.world (MenuTest_run cfg env ⟨fs0, false, false⟩)) = true) := by
  rcases MenuTest_run_shape cfg env ⟨fs0, false, false⟩ with ⟨hw, _, _, _⟩ | ⟨seq, _, hw, _, _⟩
  · rw [hw]
    refine ⟨h, ?_⟩
    intro hps
    simp at hps
  · rw [hw]
    constructor
    · have hpath : QemuRunner.monitor_socket_path
          (LoopOut.q (menuLoop cfg env seq ⟨fs0, false, false⟩)) = monPath cfg := by
        rw [menuLoop]
        exact (runLoop_inv cfg env seq 0 (menuRunner cfg) _ _).1
      rw [← hpath]
      exact qemuExit_not_mem _ _
    · intro _
      exact qemuExit_terminated _ _

theorem C1_resource_cleanup_witness :
    monPath cfg100D ∉ ([] : List String)
  ∧ (monPath cfg100D ∉ World.fs (RunOut.world (MenuTest_run cfg100D envOK ⟨[], false, false⟩))
     ∧ (World.processStarted (RunOut.world (MenuTest_run cfg100D envOK ⟨[], false, false⟩)) = true →
        World.terminated (RunOut.world (MenuTest_run cfg100D envOK ⟨[], false, false⟩)) = true)) :=
  ⟨by decide, C1_resource_cleanup cfg100D envOK [] (by decide)⟩

/-- C4: an unknown device model, an unregistered ROM MD5, or a ROM MD5
with no known key sequence makes the run return a Failed outcome before
any emulator process is started: the world is untouched and no event
(process launch, socket traffic) happens. -/
theorem C4_precondition_failure (cfg : MenuCfg) (env : Env) (w0 : World)
    (h : lookup? (MenuCfg.known_cams cfg) (Cam.model (MenuCfg.cam cfg)) = none
       ∨ (∃ md5s, lookup? (MenuCfg.known_cams cfg) (Cam.model (MenuCfg.cam cfg)) = some md5s
            ∧ Cam.code_rom_md5 (MenuCfg.cam cfg) ∉ md5s)
       ∨ lookup? qemu_key_sequences (Cam.code_rom_md5 (MenuCfg.cam cfg)) = none) :
    (∃ r, RunOut.result (MenuTest_run cfg env w0) = RunResult.failure r)
  ∧ RunOut.world (MenuTest_run cfg env w0) = w0
  ∧ RunOut.trace (MenuTest_run cfg env w0) = [] := by
  rcases h with hk | ⟨md5s, hk, hmem⟩ | hs
  · rw [MenuTest_run_unknown_model cfg env w0 hk]
    exact ⟨⟨_, rfl⟩, rfl, rfl⟩
  · rw [MenuTest_run_unknown_rom cfg env w0 md5s hk hmem]
    exact ⟨⟨_, rfl⟩, rfl, rfl⟩
  · rcases hk2 : lookup? (MenuCfg.known_cams cfg) (Cam.model (MenuCfg.cam cfg)) with _ | md5s
    · rw [MenuTest_run_unknown_model cfg env w0 hk2]
      exact ⟨⟨_, rfl⟩, rfl, rfl⟩
    · by_cases hmem : Cam.code_rom_md5 (MenuCfg.cam cfg) ∈ md5s
      · rw [MenuTest_run_unknown_sequence cfg env w0 md5s hk2 hmem hs]
        exact ⟨⟨_, rfl⟩, rfl, rfl⟩
      · rw [MenuTest_run_unknown_rom cfg env w0 md5s hk2 hmem]
        exact ⟨⟨_, rfl⟩, rfl, rfl⟩

theorem C4_precondition_failure_witness :
    (lookup? (MenuCfg.known_cams cfgUnknown) (Cam.model (MenuCfg.cam cfgUnknown)) = none)
  ∧ ((∃ r, RunOut.result (MenuTest_run cfgUnknown envOK w0c) = RunResult.failure r)
     ∧ RunOut.world (MenuTest_run cfgUnknown envOK w0c) = w0c
     ∧ RunOut.trace (MenuTest_run cfgUnknown envOK w0c) = []) :=
  ⟨rfl, C4_precondition_failure cfgUnknown envOK w0c (Or.inl rfl)⟩

/-- C8 counterexample: a concrete graceful shutdown call does not close
the connection before waiting the grace period — its trace is connect,
send, sleep 2, and only then the implicit close at function return, not
connect, send, close, sleep 2 as the claim orders it. -/
theorem C8_shutdown_counterexample :
    (shutdown (QemuRunner_init "") true false).1
      ≠ [Event.connect "qemu.monitor", Event.send "system_powerdown\n",
         Event.close, Event.sleep 2]
  ∧ (shutdown (QemuRunner_init "") true false).1
      = [Event.connect "qemu.monitor", Event.send "system_powerdown\n",
         Event.sleep 2, Event.close] := by
  refine ⟨by decide, by decide⟩

/-- C8 (amended): a shutdown call whose connect succeeds opens one
connection to the management socket path, writes exactly one
newline-terminated ASCII command — `system_powerdown\n` for graceful
PowerDown (`force = false`), `quit\n` for forced Quit (`force = true`) —
reads no response, waits the fixed two-unit grace period, and the
connection is closed only then, implicitly, when the call returns: the
source never calls close explicitly. -/
theorem C8_shutdown_protocol (q : QemuRunner) (connOk force : Bool)
    (h : connOk = true) :
    shutdown q connOk force
      = ([Event.connect (QemuRunner.monitor_socket_path q),
          Event.send (if force then "quit\n" else "system_powerdown\n"),
          Event.sleep 2, Event.close], none)
  ∧ pyEndsWith (if force then "quit\n" else "system_powerdown\n") "\n" = true := by
  subst h
  refine ⟨rfl, ?_⟩
  cases force <;> decide

theorem C8_shutdown_protocol_witness :
    (true = true)
  ∧ (shutdown (QemuRunner_init "") true false
      = ([Event.connect (QemuRunner.monitor_socket_path (QemuRunner_init "")),
          Event.send (if false then "quit\n" else "system_powerdown\n"),
          Event.sleep 2, Event.close], none)
     ∧ pyEndsWith (if false then "quit\n" else "system_powerdown\n") "\n" = true) :=
  ⟨rfl, C8_shutdown_protocol (QemuRunner_init "") true false rfl⟩

/-- C10: leaving the `QemuRunner` context never fails because the
monitor socket artifact is absent — when `os.remove` raises
FileNotFoundError the exit still completes, recording only the
termination — and running the exit twice equals running it once. -/
theorem C10_exit_idempotent (q : QemuRunner) (w : World) :
    (osRemove (World.fs w) (QemuRunner.monitor_socket_path q) = Except.error () →
       qemuExit q w = { w with terminated := true })
  ∧ qemuExit q (qemuExit q w) = qemuExit q w := by
  refine ⟨qemuExit_err q w, ?_⟩
  have h2 : QemuRunner.monitor_socket_path q ∉ World.fs (qemuExit q w) := qemuExit_not_mem q w
  have h3 : osRemove (World.fs (qemuExit q w)) (QemuRunner.monitor_socket_path q)
      = Except.error () := by
    unfold osRemove
    rw [if_neg h2]
  rw [qemuExit_err q (qemuExit q w) h3]
  have hterm := qemuExit_terminated q w
  rcases hqe : qemuExit q w with ⟨fs', ps', t'⟩
  rw [hqe] at hterm
  simp only at hterm
  subst hterm
  rfl

theorem C10_exit_idempotent_witness :
    (osRemove (World.fs w0c) (QemuRunner.monitor_socket_path (QemuRunner_init ""))
       = Except.error ())
  ∧ qemuExit (QemuRunner_init "") w0c = { w0c with terminated := true }
  ∧ qemuExit (QemuRunner_init "") (qemuExit (QemuRunner_init "") w0c)
      = qemuExit (QemuRunner_init "") w0c :=
  ⟨rfl, (C10_exit_idempotent (QemuRunner_init "") w0c).1 rfl,
   (C10_exit_idempotent (QemuRunner_init "") w0c).2⟩

/-- C2 counterexample: with the 100D configuration, every comparison
matching, and the monitor connect refused, the loop completes without
terminal failure, yet the run sends no PowerDown command at all and
ends in an uncaught ConnectionError — not in Succeeded. -/
theorem C2_shutdown_counterexample :
    LoopOut.res (menuLoop cfg100D envSD seq100D w0c) = none
  ∧ List.countP isPowerDownSend (RunOut.trace (MenuTest_run cfg100D envSD w0c)) = 0
  ∧ RunOut.result (MenuTest_run cfg100D envSD w0c) = RunResult.exn PyErr.connectionError := by
  refine ⟨by decide, by decide, by decide⟩

/-- C2 (amended): for every run whose checks pass and whose step loop
completes without terminal failure, the runner attempts one graceful
PowerDown: when the management connection succeeds, exactly one
`system_powerdown` command is sent and the run returns Succeeded; when
it fails, no command is sent and the `ConnectionError` propagates out of
the run, so the outcome is not Succeeded (nor a Failed result). -/
theorem C2_graceful_shutdown (cfg : MenuCfg) (env : Env) (w0 : World)
    (md5s seq : List String)
    (hk : lookup? (MenuCfg.known_cams cfg) (Cam.model (MenuCfg.cam cfg)) = some md5s)
    (hmem : Cam.code_rom_md5 (MenuCfg.cam cfg) ∈ md5s)
    (hs : lookup? qemu_key_sequences (Cam.code_rom_md5 (MenuCfg.cam cfg)) = some seq)
    (hdone : LoopOut.res (menuLoop cfg env seq w0) = none) :
    (Env.shutdown_ok env = true →
       List.countP isPowerDownSend (RunOut.trace (MenuTest_run cfg env w0)) = 1
     ∧ RunOut.result (MenuTest_run cfg env w0) = RunResult.success)
  ∧ (Env.shutdown_ok env = false →
       List.countP isPowerDownSend (RunOut.trace (MenuTest_run cfg env w0)) = 0
     ∧ RunOut.result (MenuTest_run cfg env w0) = RunResult.exn PyErr.connectionError) := by
  rw [MenuTest_run_engaged cfg env w0 md5s seq hk hmem hs]
  have hloop : List.countP isPowerDownSend (LoopOut.tr (menuLoop cfg env seq w0)) = 0 := by
    rw [menuLoop, runLoop_no_powerdown]
    rfl
  constructor
  · intro hb
    simp only [hdone, hb, shutdown, if_true]
    refine ⟨?_, trivial⟩
    rw [List.countP_append, hloop]
    rfl
  · intro hb
    simp only [hdone, hb, shutdown, Bool.false_eq_true, if_false]
    refine ⟨?_, trivial⟩
    rw [List.countP_append, hloop]
    rfl

theorem C2_graceful_shutdown_witness :
    (lookup? (MenuCfg.known_cams cfg100D) (Cam.model (MenuCfg.cam cfg100D))
       = some ["e06a0e3919ac4d4ef609a864e937a5d3"]
     ∧ Cam.code_rom_md5 (MenuCfg.cam cfg100D) ∈ ["e06a0e3919ac4d4ef609a864e937a5d3"]
     ∧ lookup? qemu_key_sequences (Cam.code_rom_md5 (MenuCfg.cam cfg100D)) = some seq100D
     ∧ LoopOut.res (menuLoop cfg100D envOK seq100D w0c) = none
     ∧ Env.shutdown_ok envOK = true)
  ∧ (List.countP isPowerDownSend (RunOut.trace (MenuTest_run cfg100D envOK w0c)) = 1
     ∧ RunOut.result (MenuTest_run cfg100D envOK w0c) = RunResult.success) :=
  ⟨⟨by decide, by decide, by decide, by decide, rfl⟩,
   (C2_graceful_shutdown cfg100D envOK w0c ["e06a0e3919ac4d4ef609a864e937a5d3"] seq100D
     (by decide) (by decide) (by decide) (by decide)).1 rfl⟩

/-- C3: the screenshot counter starts at zero, each `capture_screen`
call increments it by exactly one, the capture names of any run are the
consecutively numbered scenario names starting from zero (so the counter
is never reset mid-run and finishes equal to the number of capture
calls), and the capture names within one run are pairwise distinct. -/
theorem C3_capture_counter (cfg : MenuCfg) (env : Env) (fs0 : List String)
    (s : String) (q : QemuRunner) (w : World) :
    QemuRunner.screen_cap_counter (QemuRunner_init s) = 0
  ∧ QemuRunner.screen_cap_counter (Act.q (capture_screen q w))
      = QemuRunner.screen_cap_counter q + 1
  ∧ capturesOf (RunOut.trace (MenuTest_run cfg env ⟨fs0, false, false⟩))
      = (List.range (RunOut.capCount (MenuTest_run cfg env ⟨fs0, false, false⟩))).map menuName
  ∧ (capturesOf (RunOut.trace (MenuTest_run cfg env ⟨fs0, false, false⟩))).Nodup := by
  obtain ⟨m, hm, hcnt, hcaps⟩ := MenuTest_run_captures cfg env ⟨fs0, false, false⟩
  refine ⟨rfl, rfl, ?_, ?_⟩
  · rw [hcaps, hcnt]
  · rw [hcaps]
    have hsub : List.Sublist ((List.range m).map menuName) ((List.range 40).map menuName) :=
      List.Sublist.map menuName (List.range_sublist.mpr hm)
    exact List.Nodup.sublist hsub menuName_nodup_40

/-- C5: a step whose reference image is missing fails the run
immediately with a reason naming the missing reference path when
forceContinue is off, and proceeds to the next step with no further
effect when forceContinue is on. -/
theorem C5_missing_reference (cfg : MenuCfg) (env : Env) (k : String)
    (ks : List String) (i : Nat) (q : QemuRunner) (w : World) (tr : List Event)
    (h : Env.step env i = CmpOutcome.refMissing) :
    (MenuCfg.force_continue cfg = false →
      runLoop cfg env (k :: ks) i q w tr
        = { q := Act.q (stepAct q w k), w := Act.w (stepAct q w k)
            tr := tr ++ Act.evs (stepAct q w k)
            res := some (RunResult.failure ("Missing expected output file: "
              ++ pathJoin (MenuCfg.expected_output_dir cfg)
                   (QemuRunner.screen_cap_name (Act.q (stepAct q w k))))) })
  ∧ (MenuCfg.force_continue cfg = true →
      runLoop cfg env (k :: ks) i q w tr
        = runLoop cfg env ks (i + 1) (Act.q (stepAct q w k)) (Act.w (stepAct q w k))
            (tr ++ Act.evs (stepAct q w k))) := by
  constructor <;> intro hfc <;>
    simp only [runLoop, h, hfc, Bool.false_eq_true, if_true, if_false]

theorem C5_missing_reference_witness :
    Env.step envRM 0 = CmpOutcome.refMissing
  ∧ LoopOut.res (runLoop cfg100D envRM ["m"] 0 (menuRunner cfg100D) w0c [])
      = some (RunResult.failure "Missing expected output file: expected/menu_test_00.png")
  ∧ LoopOut.res (runLoop { cfg100D with force_continue := true } envRM ["m"] 0
        (menuRunner cfg100D) w0c [])
      = none := by
  refine ⟨rfl, ?_, ?_⟩
  · rw [(C5_missing_reference cfg100D envRM "m" [] 0 (menuRunner cfg100D) w0c [] rfl).1 rfl]
    decide
  · rw [(C5_missing_reference { cfg100D with force_continue := true } envRM "m" [] 0
      (menuRunner cfg100D) w0c [] rfl).2 rfl]
    decide

/-- C6: a step whose comparison times out writes exactly one diagnostic
artifact, named `fail_` followed by the expected capture name, whether
or not forceContinue is set; without forceContinue the run fails with a
reason citing both the expected reference path and the diagnostic
name. -/
theorem C6_timeout_diagnostic (cfg : MenuCfg) (env : Env) (k : String)
    (ks : List String) (i : Nat) (q : QemuRunner) (w : World) (tr : List Event)
    (h : Env.step env i = CmpOutcome.timedOut) :
    saveFailsOf (Act.evs (stepAct q w k)
        ++ [Event.saveFail ("fail_" ++ QemuRunner.screen_cap_name (Act.q (stepAct q w k)))])
      = ["fail_" ++ QemuRunner.screen_cap_name (Act.q (stepAct q w k))]
  ∧ runLoop cfg env (k :: ks) i q w tr
      = (if MenuCfg.force_continue cfg then
          runLoop cfg env ks (i + 1) (Act.q (stepAct q w k))
            { Act.w (stepAct q w k) with
                fs := fsAdd (World.fs (Act.w (stepAct q w k)))
                        ("fail_" ++ QemuRunner.screen_cap_name (Act.q (stepAct q w k))) }
            (tr ++ (Act.evs (stepAct q w k)
              ++ [Event.saveFail ("fail_" ++ QemuRunner.screen_cap_name (Act.q (stepAct q w k)))]))
         else
          { q := Act.q (stepAct q w k)
            w := { Act.w (stepAct q w k) with
                fs := fsAdd (World.fs (Act.w (stepAct q w k)))
                        ("fail_" ++ QemuRunner.screen_cap_name (Act.q (stepAct q w k))) }
            tr := tr ++ (Act.evs (stepAct q w k)
              ++ [Event.saveFail ("fail_" ++ QemuRunner.screen_cap_name (Act.q (stepAct q w k)))])
            res := some (RunResult.failure
              ("Qemu screen never matched against expected result file \x27"
               ++ pathJoin (MenuCfg.expected_output_dir cfg)
                    (QemuRunner.screen_cap_name (Act.q (stepAct q w k)))
               ++ "\x27\n, check \x27"
               ++ ("fail_" ++ QemuRunner.screen_cap_name (Act.q (stepAct q w k)))
               ++ "\x27")) }) := by
  refine ⟨rfl, ?_⟩
  simp only [runLoop, h]

theorem C6_timeout_diagnostic_witness :
    Env.step envTO 0 = CmpOutcome.timedOut
  ∧ saveFailsOf (LoopOut.tr (runLoop cfg100D envTO ["m"] 0 (menuRunner cfg100D) w0c []))
      = ["fail_menu_test_00.png"]
  ∧ LoopOut.res (runLoop cfg100D envTO ["m"] 0 (menuRunner cfg100D) w0c [])
      = some (RunResult.failure
          ("Qemu screen never matched against expected result file "
           ++ "\x27expected/menu_test_00.png\x27\n, check \x27fail_menu_test_00.png\x27")) := by
  refine ⟨rfl, ?_, ?_⟩ <;>
    rw [(C6_timeout_diagnostic cfg100D envTO "m" [] 0 (menuRunner cfg100D) w0c [] rfl).2] <;>
    decide

/-- Helper for C7: the trace of a non-empty loop extends the incoming
trace by the events of the step itself first. -/
theorem runLoop_cons_tr (cfg : MenuCfg) (env : Env) (k : String)
    (ks : List String) (i : Nat) (q : QemuRunner) (w : World) (tr : List Event) :
    ∃ s2, LoopOut.tr (runLoop cfg env (k :: ks) i q w tr)
      = tr ++ Act.evs (stepAct q w k) ++ s2 := by
  simp only [runLoop]
  rcases henv : Env.step env i with _ | _ | _ | _ <;>
    rcases hfc : MenuCfg.force_continue cfg <;>
    simp only [henv, hfc, Bool.false_eq_true, if_true, if_false]
  case ok.false | ok.true | refMissing.true =>
    all_goals
      obtain ⟨s, hs⟩ := runLoop_tr_mono cfg env ks (i + 1) (Act.q (stepAct q w k))
        (Act.w (stepAct q w k)) (tr ++ Act.evs (stepAct q w k))
      exact ⟨s, hs⟩
  case timedOut.true =>
    obtain ⟨s, hs⟩ := runLoop_tr_mono cfg env ks (i + 1) (Act.q (stepAct q w k)) _
      (tr ++ (Act.evs (stepAct q w k)
        ++ [Event.saveFail ("fail_" ++ QemuRunner.screen_cap_name (Act.q (stepAct q w k)))]))
    refine ⟨[Event.saveFail ("fail_" ++ QemuRunner.screen_cap_name (Act.q (stepAct q w k)))] ++ s, ?_⟩
    rw [hs]
    simp [List.append_assoc]
  case refMissing.false | raises.false | raises.true =>
    all_goals exact ⟨[], by simp⟩
  case timedOut.false =>
    refine ⟨[Event.saveFail ("fail_" ++ QemuRunner.screen_cap_name (Act.q (stepAct q w k)))], ?_⟩
    simp [List.append_assoc]

/-- C7: every step presses exactly the key the step string resolves to —
the string itself by default, its final whitespace-separated token when
it starts with "wait" — and then sleeps the resolved settle delay: 0.3
by default, 5 for "wait" steps. -/
theorem C7_settle_delay (cfg : MenuCfg) (env : Env) (k : String)
    (ks : List String) (i : Nat) (q : QemuRunner) (w : World) (tr : List Event) :
    ∃ s, LoopOut.tr (runLoop cfg env (k :: ks) i q w tr)
      = tr ++ Event.keyPress (if pyStartsWith k "wait" then (pySplit k).getLastD "" else k)
          :: Event.sleep (if pyStartsWith k "wait" then (5 : ℚ) else 3/10) :: s := by
  obtain ⟨s2, h⟩ := runLoop_cons_tr cfg env k ks i q w tr
  refine ⟨[Event.sleep (1/10), Event.capture (capName q), Event.sleep (1/10)] ++ s2, ?_⟩
  rw [h, stepAct_evs, List.append_assoc]
  simp

/-- C9 counterexample: the same configuration and key sequence replayed
under two screen-content behaviours (all comparisons matching versus the
first comparison timing out without forceContinue) produces different
capture-name lists, because the second replay stops after one step. -/
theorem C9_replay_counterexample :
    capturesOf (RunOut.trace (MenuTest_run cfg100D envOK w0c))
      ≠ capturesOf (RunOut.trace (MenuTest_run cfg100D envTO w0c)) := by
  decide

/-- C9 (amended): capture names are determined by the naming prefix and
the per-run counter alone — the capture list of every run consists of the
consecutively numbered scenario names from zero — so of two replays of
the same configuration one capture-name list is always an initial
segment of the other, and replays that process the same number of steps
produce identical lists. -/
theorem C9_replay_naming (cfg : MenuCfg) (env1 env2 : Env) (w1 w2 : World) :
    capturesOf (RunOut.trace (MenuTest_run cfg env1 w1))
      = (List.range (RunOut.capCount (MenuTest_run cfg env1 w1))).map menuName
  ∧ ((∃ t, capturesOf (RunOut.trace (MenuTest_run cfg env1 w1)) ++ t
        = capturesOf (RunOut.trace (MenuTest_run cfg env2 w2)))
   ∨ (∃ t, capturesOf (RunOut.trace (MenuTest_run cfg env2 w2)) ++ t
        = capturesOf (RunOut.trace (MenuTest_run cfg env1 w1)))) := by
  obtain ⟨m1, _, hc1, hcaps1⟩ := MenuTest_run_captures cfg env1 w1
  obtain ⟨m2, _, hc2, hcaps2⟩ := MenuTest_run_captures cfg env2 w2
  have key : ∀ a b : Nat, a ≤ b →
      (List.range a).map menuName ++ (List.range' a (b - a)).map menuName
        = (List.range b).map menuName := by
    intro a b hab
    rw [← List.map_append]
    congr 1
    rw [List.range_eq_range', List.range_eq_range']
    have h0 : a = 0 + a := by omega
    calc List.range' 0 a ++ List.range' a (b - a)
        = List.range' 0 a ++ List.range' (0 + a) (b - a) := by rw [← h0]
      _ = List.range' 0 (b - a + a) := List.range'_append_1 0 a (b - a)
      _ = List.range' 0 b := by congr 1; omega
  constructor
  · rw [hcaps1, hc1]
  · rcases Nat.le_total m1 m2 with hle | hle
    · exact Or.inl ⟨(List.range' m1 (m2 - m1)).map menuName,
        by rw [hcaps1, hcaps2, key m1 m2 hle]⟩
    · exact Or.inr ⟨(List.range' m2 (m1 - m2)).map menuName,
        by rw [hcaps1, hcaps2, key m2 m1 hle]⟩

end QemuEos


